import Mathlib

/-!
Verification development for the email-verification engine
(`src/emailVerifier.js`).  The JavaScript source is shallowly embedded:

* pure string functions are translated to executable Lean functions over
  `List Char` / `String`;
* the `async` orchestration (`verifyEmail`) is translated to a pure function
  parametrised by an environment (`Env`) supplying the outcome of the DNS
  lookup and of each per-server SMTP probe; a JavaScript exception is
  modelled as `Except.error`, paired with the result object as mutated so
  far (the JS code mutates one `result` object in place and the top-level
  `catch` only overwrites the classification fields);
* wall-clock fields of the result object (`executiontime`, `timestamp`)
  are outside the embedding and omitted.
-/

set_option autoImplicit false
set_option maxRecDepth 100000

namespace EmailVerifier

/-- A JavaScript value passed to the public entry points: the code is
called with `null`/`undefined`, numbers and strings. -/
inductive JSVal where
  | null : JSVal
  | undef : JSVal
  | str : String → JSVal
  | num : Int → JSVal
deriving DecidableEq

/-- JavaScript truthiness (`!email`) for the modelled values:
`null`, `undefined`, the empty string and `0` are falsy. -/
def JSVal.truthy : JSVal → Bool
  | .null => false
  | .undef => false
  | .str s => s ≠ ""
  | .num n => n ≠ 0

/-- ASCII whitespace dropped by `String.prototype.trim` (the inputs the
claims exercise only involve the ASCII cases). -/
def isWS (c : Char) : Bool :=
  c = ' ' || c = '\t' || c = '\n' || c = '\r'

/-- `email.trim()` on the underlying character list. -/
def jsTrim (l : List Char) : List Char :=
  ((l.dropWhile isWS).reverse.dropWhile isWS).reverse

/-- `email.trim()` as a `String` function. -/
def jsTrimS (s : String) : String :=
  String.mk (jsTrim s.data)

/-- `(email.match(/@/g) || []).length`: number of `@` characters. -/
def countAt (l : List Char) : Nat :=
  l.count '@'

/-- `email.split("@")` (and `split(".")`): split a character list at every
occurrence of the separator; always returns at least one segment. -/
def splitAtChar (sep : Char) : List Char → List (List Char)
  | [] => [[]]
  | c :: cs =>
    if c = sep then
      [] :: splitAtChar sep cs
    else
      match splitAtChar sep cs with
      | [] => [[c]]
      | s :: ss => (c :: s) :: ss

/-- `localPart.includes("..")`. -/
def hasConsecutiveDots : List Char → Bool
  | c1 :: c2 :: rest => (c1 = '.' && c2 = '.') || hasConsecutiveDots (c2 :: rest)
  | _ => false

/-- The `COMMON_TYPOS` table (source lines 10-31), in JS object insertion
order, which `Object.entries` preserves. -/
def COMMON_TYPOS : List (String × String) :=
  [("gmial.com", "gmail.com"),
   ("gmai.com", "gmail.com"),
   ("gmil.com", "gmail.com"),
   ("gmail.co", "gmail.com"),
   ("gmail.cm", "gmail.com"),
   ("ymail.com", "gmail.com"),
   ("yahooo.com", "yahoo.com"),
   ("yaho.com", "yahoo.com"),
   ("yahoo.co", "yahoo.com"),
   ("hotmial.com", "hotmail.com"),
   ("hotmail.co", "hotmail.com"),
   ("hotmil.com", "hotmail.com"),
   ("outlok.com", "outlook.com"),
   ("outlook.co", "outlook.com"),
   ("outloo.com", "outlook.com"),
   ("outlook.cm", "outlook.com"),
   ("goggle.com", "google.com"),
   ("icloud.cm", "icloud.com"),
   ("protonmail.co", "protonmail.com"),
   ("aol.com", "aol.com")]

/-- The `DISPOSABLE_DOMAINS` set (source lines 34-45). -/
def DISPOSABLE_DOMAINS : List String :=
  ["mailinator.com", "10minutemail.com", "guerrillamail.com", "temp-mail.org",
   "dropmail.me", "yopmail.com", "trashmail.com", "dispostable.com",
   "getnada.com", "maildrop.cc"]

/-- The `ROLE_ACCOUNTS` set (source lines 48-66). -/
def ROLE_ACCOUNTS : List String :=
  ["admin", "administrator", "support", "info", "sales", "billing", "help",
   "contact", "webmaster", "sysadmin", "postmaster", "hostmaster", "root",
   "hr", "jobs", "office", "marketing"]

/-! ## Levenshtein distance (source lines 68-88)

The source fills a `(|str2|+1) × (|str1|+1)` matrix row by row with
`matrix[j][i] = min(matrix[j][i-1] + 1, matrix[j-1][i] + 1,
matrix[j-1][i-1] + indicator)` and returns the bottom-right entry.  The
embedding computes the same rows functionally: `levRowAux` produces the
entries `i = 1 …` of a row from the previous row, and `levenshteinDistance`
folds over the characters of `str2`. -/

/-- `const indicator = str1[i-1] === str2[j-1] ? 0 : 1`. -/
def levIndicator (a b : Char) : Nat :=
  if a = b then 0 else 1

/-- Entries `i = 1 … |s1|` of a matrix row: `prevDiag` is `matrix[j-1][i-1]`,
`prevTail` the previous row from position `i` on, and `left` the entry
`matrix[j][i-1]` just computed. -/
def levRowAux (c2 : Char) : List Char → Nat → List Nat → Nat → List Nat
  | [], _, _, _ => []
  | c1 :: s1, prevDiag, prevTail, left =>
    let up := prevTail.headD 0
    let cur := min (left + 1) (min (up + 1) (prevDiag + levIndicator c1 c2))
    cur :: levRowAux c2 s1 up prevTail.tail cur

/-- One full matrix row for the character `c2` of `str2`; the leading entry
is `matrix[j][0] = j`. -/
def levNextRow (s1 : List Char) (prev : List Nat) (c2 : Char) : List Nat :=
  let h := prev.headD 0
  (h + 1) :: levRowAux c2 s1 h prev.tail (h + 1)

/-- `levenshteinDistance(str1, str2)`: row 0 is `0 … |str1|`
(`matrix[0][i] = i`), each character of `str2` produces the next row, and
the answer is `matrix[|str2|][|str1|]`, the last entry of the final row. -/
def levenshteinDistance (str1 str2 : String) : Nat :=
  let s1 := str1.data
  let row0 := List.range (s1.length + 1)
  (str2.data.foldl (levNextRow s1) row0).getLastD 0

/-- The textbook Levenshtein recurrence; the DP matrix of the source is
its memoisation (`levenshteinDistance_eq` below).  Stated on lists whose
characters are consumed from the front. -/
def levRec : List Char → List Char → Nat
  | [], ys => ys.length
  | _ :: xs, [] => xs.length + 1
  | x :: xs, y :: ys =>
    min (levRec xs (y :: ys) + 1)
      (min (levRec (x :: xs) ys + 1) (levRec xs ys + levIndicator x y))
termination_by xs ys => xs.length + ys.length

/-- The entries `levRec (rev prefix) B` as the prefix of `A` (reversed into
`P`) grows; this is the shape of a DP matrix row from position 1 on. -/
def levRecRow (B : List Char) : List Char → List Char → List Nat
  | _, [] => []
  | P, a :: A => levRec (a :: P) B :: levRecRow B (a :: P) A

/-- A full DP matrix row, as predicted by the recurrence. -/
def levFullRow (A B : List Char) : List Nat :=
  levRec [] B :: levRecRow B [] A

theorem levRowAux_spec (c2 : Char) :
    ∀ (A P B : List Char),
      levRowAux c2 A (levRec P B) (levRecRow B P A) (levRec P (c2 :: B)) =
        levRecRow (c2 :: B) P A := by
  intro A
  induction A with
  | nil => intro P B; rfl
  | cons a A ih =>
    intro P B
    show (min (levRec P (c2 :: B) + 1)
        (min ((levRecRow B P (a :: A)).headD 0 + 1)
          (levRec P B + levIndicator a c2))) ::
        levRowAux c2 A ((levRecRow B P (a :: A)).headD 0)
          (levRecRow B P (a :: A)).tail
          (min (levRec P (c2 :: B) + 1)
            (min ((levRecRow B P (a :: A)).headD 0 + 1)
              (levRec P B + levIndicator a c2))) =
        levRecRow (c2 :: B) P (a :: A)
    have hhead : (levRecRow B P (a :: A)).headD 0 = levRec (a :: P) B := rfl
    have htail : (levRecRow B P (a :: A)).tail = levRecRow B (a :: P) A := rfl
    rw [hhead, htail]
    have hcur :
        min (levRec P (c2 :: B) + 1)
          (min (levRec (a :: P) B + 1) (levRec P B + levIndicator a c2)) =
        levRec (a :: P) (c2 :: B) := by
      rw [levRec]
    rw [hcur, ih (a :: P) B]
    rfl

theorem levNextRow_spec (A B : List Char) (c2 : Char) :
    levNextRow A (levFullRow A B) c2 = levFullRow A (c2 :: B) := by
  show ((levFullRow A B).headD 0 + 1) ::
      levRowAux c2 A ((levFullRow A B).headD 0) (levFullRow A B).tail
        ((levFullRow A B).headD 0 + 1) =
      levFullRow A (c2 :: B)
  have hhead : (levFullRow A B).headD 0 = levRec [] B := rfl
  have htail : (levFullRow A B).tail = levRecRow B [] A := rfl
  have hlen : levRec [] B + 1 = levRec [] (c2 :: B) := by
    simp [levRec]
  rw [hhead, htail, hlen, levRowAux_spec]
  rfl

theorem levFoldl_spec (A : List Char) :
    ∀ (ys B : List Char),
      List.foldl (levNextRow A) (levFullRow A B) ys =
        levFullRow A (ys.reverse ++ B) := by
  intro ys
  induction ys with
  | nil => intro B; simp
  | cons y ys ih =>
    intro B
    show List.foldl (levNextRow A) (levNextRow A (levFullRow A B) y) ys =
      levFullRow A ((y :: ys).reverse ++ B)
    rw [levNextRow_spec, ih (y :: B)]
    simp

theorem levRecRow_nil_right :
    ∀ (A P : List Char), levRecRow [] P A = List.range' (P.length + 1) A.length := by
  intro A
  induction A with
  | nil => intro P; rfl
  | cons a A ih =>
    intro P
    show levRec (a :: P) [] :: levRecRow [] (a :: P) A =
      List.range' (P.length + 1) (A.length + 1)
    have h1 : levRec (a :: P) [] = P.length + 1 := by simp [levRec]
    rw [h1, ih (a :: P), List.range'_succ]
    rfl

theorem levFullRow_nil (A : List Char) :
    levFullRow A [] = List.range (A.length + 1) := by
  show levRec [] [] :: levRecRow [] [] A = List.range (A.length + 1)
  rw [levRecRow_nil_right, List.range_eq_range', List.range'_succ]
  simp [levRec]

theorem levRecRow_getLastD (B : List Char) :
    ∀ (A P : List Char) (z : Nat), A ≠ [] →
      (levRecRow B P A).getLastD z = levRec (A.reverse ++ P) B := by
  intro A
  induction A with
  | nil => intro P z h; exact absurd rfl h
  | cons a A ih =>
    intro P z _
    show (levRec (a :: P) B :: levRecRow B (a :: P) A).getLastD z =
      levRec ((a :: A).reverse ++ P) B
    cases hA : A with
    | nil => simp [levRecRow]
    | cons b A' =>
      rw [List.getLastD_cons]
      have h2 := ih (a :: P) (levRec (a :: P) B) (by simp [hA])
      rw [hA] at h2
      rw [h2]
      simp

theorem levFullRow_getLastD (A B : List Char) :
    (levFullRow A B).getLastD 0 = levRec A.reverse B := by
  cases hA : A with
  | nil => simp [levFullRow, levRecRow]
  | cons a A' =>
    show (levRec [] B :: levRecRow B [] (a :: A')).getLastD 0 =
      levRec ((a :: A').reverse) B
    rw [List.getLastD_cons, levRecRow_getLastD B (a :: A') [] _ (by simp)]
    simp

/-- The matrix-filling `levenshteinDistance` computes the textbook
recurrence (on the reversed character lists, since the matrix grows
prefixes while the recurrence strips from the front). -/
theorem levenshteinDistance_eq (s t : String) :
    levenshteinDistance s t = levRec s.data.reverse t.data.reverse := by
  show (t.data.foldl (levNextRow s.data) (List.range (s.data.length + 1))).getLastD 0 =
    levRec s.data.reverse t.data.reverse
  rw [← levFullRow_nil s.data, levFoldl_spec, List.append_nil, levFullRow_getLastD]

theorem levRec_self : ∀ xs : List Char, levRec xs xs = 0 := by
  intro xs
  induction xs with
  | nil => simp [levRec]
  | cons x xs ih =>
    rw [levRec]
    simp [levIndicator, ih]

theorem levIndicator_comm (a b : Char) : levIndicator a b = levIndicator b a := by
  unfold levIndicator
  rcases eq_or_ne a b with h | h
  · simp [h]
  · simp [h, Ne.symm h]

theorem levRec_comm : ∀ xs ys : List Char, levRec xs ys = levRec ys xs := by
  intro xs
  induction xs with
  | nil =>
    intro ys
    cases ys with
    | nil => rfl
    | cons y ys => simp [levRec]
  | cons x xs ihx =>
    intro ys
    induction ys with
    | nil => simp [levRec]
    | cons y ys ihy =>
      rw [levRec, levRec]
      rw [← ihx (y :: ys), ← ihx ys, ← ihy, levIndicator_comm]
      rw [min_left_comm]

example : levenshteinDistance "gmai" "gmail" = 1 := by decide
example : levenshteinDistance "gmaill" "gmail" = 1 := by decide
example : levenshteinDistance "pmail" "gmail" = 1 := by decide
example : levenshteinDistance "yahooo" "yahoo" = 1 := by decide
example : levenshteinDistance "" "gmail" = 5 := by decide
example : levenshteinDistance "abc" "xyz" = 3 := by decide

/-! ## Syntax validation (source lines 90-145) -/

/-- Result of `validateEmailSyntax`: `{ valid, error? }`. -/
structure SyntaxCheck where
  valid : Bool
  error : Option String
deriving DecidableEq

/-- Characters admitted in the local part by `STRICT_EMAIL_REGEX`
(source line 6): `a-zA-Z0-9` and ``.!#$%&'*+/=?^_`{|}~-``.  The
apostrophe (39), backtick (96) and braces (123, 125) are written by
code point. -/
def isLocalChar (c : Char) : Bool :=
  c.isAlphanum || (".!#$%&*+/=?^_-~|".data.contains c) ||
    c.val = 39 || c.val = 96 || c.val = 123 || c.val = 125

/-- One DNS label of the regex:
`[a-zA-Z0-9](?:[a-zA-Z0-9-]{0,61}[a-zA-Z0-9])?`, i.e. 1-63 characters,
alphanumeric with internal hyphens, first and last alphanumeric. -/
def labelOk (l : List Char) : Bool :=
  !l.isEmpty && l.length ≤ 63 && (l.headD ' ').isAlphanum &&
    (l.getLastD ' ').isAlphanum && l.all (fun c => c.isAlphanum || c = '-')

/-- `STRICT_EMAIL_REGEX.test(email)`.  Neither character class admits `@`,
so the regex matches exactly when the string splits at its `@`s into a
non-empty local part of local characters followed by a dot-separated
label sequence (the regex is only evaluated once the `@` count is 1). -/
def strictMatch (e : List Char) : Bool :=
  match splitAtChar '@' e with
  | [localPart, domain] =>
    !localPart.isEmpty && localPart.all isLocalChar &&
      (splitAtChar '.' domain).all labelOk
  | _ => false

/-- `email.trim().split("@")[0]` as a character list. -/
def localSeg (s : String) : List Char :=
  (splitAtChar '@' (jsTrim s.data)).headD []

/-- `email.trim().split("@")[1]` as a character list. -/
def domainSeg (s : String) : List Char :=
  ((splitAtChar '@' (jsTrim s.data)).drop 1).headD []

/-- `validateEmailSyntax` on a (truthy) string input: the trim, the
length bound, the `@` count, the strict regex, and the local-part and
domain rules of source lines 99-144, in the source's order. -/
def validateStr (s : String) : SyntaxCheck :=
  if (jsTrim s.data).length > 254 then
    ⟨false, some "Email exceeds maximum length (254 characters)"⟩
  else if countAt (jsTrim s.data) ≠ 1 then
    ⟨false, some ("Email must contain exactly one @ symbol (found " ++
      Nat.repr (countAt (jsTrim s.data)) ++ ")")⟩
  else if !strictMatch (jsTrim s.data) then
    ⟨false, some "Email format is invalid"⟩
  else if (localSeg s).length > 64 then
    ⟨false, some "Local part exceeds maximum length (64 characters)"⟩
  else if (localSeg s).headD ' ' = '.' || (localSeg s).getLastD ' ' = '.' then
    ⟨false, some "Local part cannot start or end with a dot"⟩
  else if hasConsecutiveDots (localSeg s) then
    ⟨false, some "Local part cannot contain consecutive dots"⟩
  else if !(domainSeg s).contains '.' then
    ⟨false, some "Domain must contain at least one dot"⟩
  else
    ⟨true, none⟩

/-- `validateEmailSyntax(email)` (source lines 90-145), each rule in the
source's order, first failure winning. -/
def validateEmailSyntax (email : JSVal) : SyntaxCheck :=
  if !email.truthy then
    ⟨false, some "Email is empty"⟩
  else
    match email with
    | .str s => validateStr s
    | _ => ⟨false, some "Email must be a string"⟩

example : validateEmailSyntax (.str "user@example.com") = ⟨true, none⟩ := by decide
example : validateEmailSyntax (.str "user.name@mail.example.co.uk") = ⟨true, none⟩ := by decide
example : validateEmailSyntax (.str "user+tag@example.com") = ⟨true, none⟩ := by decide
example : (validateEmailSyntax (.str "userexample.com")).valid = false := by decide
example : validateEmailSyntax (.str "user@@example.com") =
    ⟨false, some "Email must contain exactly one @ symbol (found 2)"⟩ := by decide
example : validateEmailSyntax (.str "user..name@example.com") =
    ⟨false, some "Local part cannot contain consecutive dots"⟩ := by decide
example : validateEmailSyntax (.str ".user@example.com") =
    ⟨false, some "Local part cannot start or end with a dot"⟩ := by decide
example : validateEmailSyntax (.str "user@example") =
    ⟨false, some "Domain must contain at least one dot"⟩ := by decide
example : (validateEmailSyntax (.str "user name@example.com")).valid = false := by decide
example : validateEmailSyntax (.str "") = ⟨false, some "Email is empty"⟩ := by decide
example : validateEmailSyntax .null = ⟨false, some "Email is empty"⟩ := by decide
example : validateEmailSyntax .undef = ⟨false, some "Email is empty"⟩ := by decide
example : validateEmailSyntax (.num 12345) = ⟨false, some "Email must be a string"⟩ := by decide
example : validateEmailSyntax (.str "  user@example.com  ") = ⟨true, none⟩ := by decide

/-! ## SMTP response-code interpretation (source lines 279-295) -/

/-- `interpretSMTPCode(code)`. -/
def interpretSMTPCode (code : Nat) : String :=
  if code = 0 then "connection_error"
  else if 250 ≤ code && code < 300 then "mailbox_exists"
  else if code = 550 || code = 551 || code = 553 then "mailbox_does_not_exist"
  else if code = 450 || code = 451 || code = 452 then "greylisted"
  else if code = 421 then "service_unavailable"
  else if code = 500 || code = 501 || code = 502 || code = 503 || code = 504 then "smtp_error"
  else "unknown_response"

example : interpretSMTPCode 250 = "mailbox_exists" := by decide
example : interpretSMTPCode 550 = "mailbox_does_not_exist" := by decide
example : interpretSMTPCode 552 = "unknown_response" := by decide
example : interpretSMTPCode 450 = "greylisted" := by decide
example : interpretSMTPCode 421 = "service_unavailable" := by decide
example : interpretSMTPCode 500 = "smtp_error" := by decide
example : interpretSMTPCode 0 = "connection_error" := by decide
example : interpretSMTPCode 999 = "unknown_response" := by decide

/-! ## Typo suggestion (source lines 297-325) -/

/-- A suggestion `{ suggested, distance }`. -/
structure Suggestion where
  suggested : String
  distance : Nat
deriving DecidableEq

/-- `COMMON_TYPOS[domain]`: exact-key lookup. -/
def lookupTypo (domain : String) : Option String :=
  (COMMON_TYPOS.find? (fun p => p.1 = domain)).map (fun p => p.2)

/-- The body of the `for (const [typo, correct] of Object.entries(...))`
loop: the accumulator is `(bestMatch, bestDistance)`, and an entry whose
distance is within the current best (and whose correction differs from
the domain) replaces the accumulator. -/
def scanStep (domain localPart : String) (acc : Option Suggestion × Nat)
    (p : String × String) : Option Suggestion × Nat :=
  if levenshteinDistance domain p.1 ≤ acc.2 && p.2 ≠ domain then
    (some ⟨localPart ++ "@" ++ p.2, levenshteinDistance domain p.1⟩,
      levenshteinDistance domain p.1)
  else acc

/-- The `localPart` of `suggestCorrection`'s destructuring
`const [localPart, domain] = email.split("@")` (source line 299). -/
def rawLocal (email : String) : String :=
  String.mk ((splitAtChar '@' email.data).headD [])

/-- The `domain` of the same destructuring. -/
def rawDomain (email : String) : String :=
  String.mk (((splitAtChar '@' email.data).drop 1).headD [])

/-- `suggestCorrection(email)` (source lines 297-325).  The `!email`,
non-string and `includes("@")` guards become the two leading conditions
(the function is only ever applied to strings in the embedding); the
fuzzy scan starts from `bestMatch = null, bestDistance = 2`. -/
def suggestCorrection (email : String) : Option Suggestion :=
  if email = "" || !email.data.contains '@' then none
  else
    match lookupTypo (rawDomain email) with
    | some correct => some ⟨rawLocal email ++ "@" ++ correct, 0⟩
    | none =>
      (COMMON_TYPOS.foldl (scanStep (rawDomain email) (rawLocal email)) (none, 2)).1

/-- `getDidYouMean(email)` (source lines 531-535). -/
def getDidYouMean (email : JSVal) : Option String :=
  match email with
  | .str s => if s = "" then none else (suggestCorrection (jsTrimS s)).map (fun u => u.suggested)
  | _ => none

example : (suggestCorrection "user@gmial.com").map (fun u => u.suggested) =
    some "user@gmail.com" := by decide
example : (suggestCorrection "user@yahooo.com").map (fun u => u.suggested) =
    some "user@yahoo.com" := by decide
example : (suggestCorrection "user@hotmial.com").map (fun u => u.suggested) =
    some "user@hotmail.com" := by decide
example : (suggestCorrection "user@outlok.com").map (fun u => u.suggested) =
    some "user@outlook.com" := by decide
example : suggestCorrection "user@gmail.com" = none := by decide
example : getDidYouMean (.str "user@gmial.com") = some "user@gmail.com" := by decide
example : getDidYouMean (.str "user@gmail.com") = none := by decide
example : getDidYouMean .null = none := by decide

/-! ## Multi-port racer (source lines 229-277)

`verifyWithSMTP` races `tryPort` over the ports `[25, 587, 465]` and
reduces the probe outcomes as they arrive.  The embedding abstracts the
race by the list of `ProbeOutcome`s in completion order and replays the
`then`-handler on each in turn; `raceReduceAux` carries the `results`
array accumulated so far.  The `lastError` field attached in the
all-finished branch duplicates the chosen outcome and is unused by the
callers, so it is not modelled. -/

/-- One `tryPort` result: `{ success, responseCode, message, port }`
(`responseCode = 0` on timeout or transport error). -/
structure ProbeOutcome where
  success : Bool
  responseCode : Nat
  message : String
  port : Nat
deriving DecidableEq, Inhabited

/-- The per-server verdict `verifyWithSMTP` resolves with: a probe outcome
spread together with `allPortsBlocked` (the JS object keeps the winning
outcome's `port` as well). -/
structure ServerVerdict where
  success : Bool
  responseCode : Nat
  message : String
  port : Nat
  allPortsBlocked : Bool
deriving DecidableEq

/-- The `then`-handler of source lines 238-274, replayed over the
outcomes in completion order; `acc` is the `results` array already
pushed.  `none` models a race that never resolves (impossible with a
non-empty port list). -/
def raceReduceAux (acc : List ProbeOutcome) : List ProbeOutcome → Option ServerVerdict
  | [] => none
  | o :: rest =>
    let results := acc ++ [o]
    if o.success then
      some ⟨o.success, o.responseCode, o.message, o.port, false⟩
    else if 550 ≤ o.responseCode && o.responseCode < 600 then
      some ⟨o.success, o.responseCode, o.message, o.port, false⟩
    else if rest.isEmpty then
      let best := (results.find? (fun r => r.responseCode > 0)).getD (results.headD default)
      let allBlocked := results.all (fun r => r.responseCode = 0)
      some ⟨best.success, best.responseCode,
        if allBlocked then "All SMTP ports blocked" else best.message,
        best.port, allBlocked⟩
    else raceReduceAux results rest

/-- `verifyWithSMTP(email, mxServer, timeout)` as a reduction of the
per-port probe outcomes listed in completion order. -/
def verifyWithSMTP (outcomes : List ProbeOutcome) : Option ServerVerdict :=
  raceReduceAux [] outcomes

/-! ## MX resolution (source lines 147-160) -/

/-- One record from `dns.resolveMx`. -/
structure MXRec where
  exchange : String
  priority : Int
deriving DecidableEq

/-- Stable ascending insertion used to model
`mxRecords.sort((a, b) => a.priority - b.priority)`. -/
def insertByPriority (r : MXRec) : List MXRec → List MXRec
  | [] => [r]
  | s :: rest =>
    if r.priority < s.priority then r :: s :: rest
    else s :: insertByPriority r rest

/-- Stable sort by ascending priority. -/
def sortByPriority : List MXRec → List MXRec
  | [] => []
  | r :: rest => insertByPriority r (sortByPriority rest)

/-- `getMXRecords(domain)` given the outcome of the external
`dns.resolveMx` call (`Except.error` = the resolver rejected): sorts by
priority, keeps the hostnames, and wraps a resolver failure in the
`DNS lookup failed` message. -/
def getMXRecords (domain : String) (resolved : Except String (List MXRec)) :
    Except String (List String) :=
  match resolved with
  | .error msg => .error ("DNS lookup failed for " ++ domain ++ ": " ++ msg)
  | .ok recs => .ok ((sortByPriority recs).map (fun r => r.exchange))

/-! ## The orchestrator `verifyEmail` (source lines 327-529) -/

/-- The tri-state entries of `result.steps`:
`{ valid: true|false|null, message }`. -/
structure StepInfo where
  valid : Option Bool
  message : String
deriving DecidableEq

/-- `result.steps`. -/
structure Steps where
  syntax_ : StepInfo
  mx : StepInfo
  smtp : StepInfo
deriving DecidableEq

/-- The `VerificationResult` object (the wall-clock fields
`executiontime` and `timestamp` are outside the embedding). -/
structure VerificationResult where
  email : String
  result : String
  resultcode : Nat
  subresult : String
  domain : String
  mxRecords : List String
  error : Option String
  didyoumean : Option String
  smtpBlocked : Bool
  smtpChecked : Bool
  verificationMethod : String
  disposable : Bool
  roleBased : Bool
  steps : Steps
deriving DecidableEq

/-- `verifyEmail`'s options with their defaults (`timeout` is consumed by
the transport layer, which the environment abstracts). -/
structure Options where
  checkMX : Bool := true
  checkSMTP : Bool := true
  maxAttempts : Nat := 2
deriving DecidableEq

/-- The environment a `verifyEmail` call runs against: the outcome of
`dns.resolveMx(domain)` and, for each loop iteration `i`, the verdict the
`verifyWithSMTP` race for the `i`-th attempted mail exchanger resolves
with.  An `Except.error` from the verdict oracle models an unexpected
exception thrown while awaiting the probe, exercising the defensive
`catch`. -/
structure Env where
  mx : Except String (List MXRec)
  smtp : Nat → Except String ServerVerdict

/-- The local variables of the server loop (source lines 426-429)
together with the `result.verificationMethod = "smtp_verification"`
assignment made at the loop's break points. -/
structure LoopState where
  smtpSuccess : Bool := false
  lastResponseCode : Nat := 0
  lastMessage : String := ""
  smtpBlocked : Bool := false
  methodSMTP : Bool := false
deriving DecidableEq

/-- The `for` loop of source lines 431-460 over the attempt indices:
records the latest code and message, ORs `smtpBlocked` (the flag is
never reset), and breaks on a success or on a 550-599 code. -/
def runLoop (oracle : Nat → Except String ServerVerdict) :
    List Nat → LoopState → Except String LoopState
  | [], st => .ok st
  | i :: rest, st =>
    match oracle i with
    | .error e => .error e
    | .ok v =>
      let st' : LoopState :=
        { st with lastResponseCode := v.responseCode, lastMessage := v.message,
                  smtpBlocked := st.smtpBlocked || v.allPortsBlocked }
      if v.success then .ok { st' with smtpSuccess := true, methodSMTP := true }
      else if 550 ≤ v.responseCode && v.responseCode < 600 then
        .ok { st' with methodSMTP := true }
      else runLoop oracle rest st'

/-- The classification of source lines 462-509, applied to the loop state
and the result object as of the loop's end. -/
def classify (st : LoopState) (r : VerificationResult) : VerificationResult :=
  let r := { r with
    subresult := interpretSMTPCode st.lastResponseCode,
    smtpBlocked := st.smtpBlocked,
    verificationMethod :=
      if st.methodSMTP then "smtp_verification" else r.verificationMethod }
  let r :=
    if st.smtpSuccess then
      { r with result := "valid", resultcode := 1,
               steps := { r.steps with smtp := ⟨some true, "Mailbox exists"⟩ } }
    else if st.smtpBlocked then
      { r with result := "valid", resultcode := 1,
               subresult := "smtp_blocked_but_mx_valid",
               verificationMethod := "dns_lookup_fallback",
               error := some "SMTP ports blocked (all ports timeout) - Verified via DNS MX records",
               steps := { r.steps with smtp := ⟨none, "Blocked/Timeout (Fallback to DNS)"⟩ } }
    else if 450 ≤ st.lastResponseCode && st.lastResponseCode < 500 then
      { r with result := "unknown", resultcode := 3,
               steps := { r.steps with smtp :=
                 ⟨some false, "Greylisted/Throttled (" ++ Nat.repr st.lastResponseCode ++ ")"⟩ } }
    else if 550 ≤ st.lastResponseCode && st.lastResponseCode < 600 then
      { r with result := "invalid", resultcode := 6,
               steps := { r.steps with smtp :=
                 ⟨some false, "Mailbox not found / Rejected (" ++ Nat.repr st.lastResponseCode ++ ")"⟩ } }
    else
      { r with result := "unknown", resultcode := 3,
               steps := { r.steps with smtp :=
                 ⟨some false, "Unknown response (" ++ Nat.repr st.lastResponseCode ++ ")"⟩ } }
  if !st.smtpSuccess && st.lastMessage ≠ "" then
    { r with error := some st.lastMessage }
  else r

/-- The initial `result` object (source lines 336-357);
`email?.trim?.() || ""` yields the trimmed string for strings and `""`
otherwise. -/
def initResult (email : JSVal) : VerificationResult where
  email := match email with | .str s => jsTrimS s | _ => ""
  result := "unknown"
  resultcode := 3
  subresult := "unknown"
  domain := ""
  mxRecords := []
  error := none
  didyoumean := none
  smtpBlocked := false
  smtpChecked := false
  verificationMethod := "unknown"
  disposable := false
  roleBased := false
  steps := ⟨⟨some false, "Pending"⟩, ⟨none, "Skipped"⟩, ⟨none, "Skipped"⟩⟩

/-- Steps 4-6 (source lines 423-517): the SMTP block, or the
`!checkSMTP` branch, or the silent fall-through. -/
def smtpStage (opts : Options) (env : Env) (r : VerificationResult) :
    Except (String × VerificationResult) VerificationResult :=
  if opts.checkSMTP && r.mxRecords.length > 0 then
    match runLoop env.smtp (List.range (min opts.maxAttempts r.mxRecords.length)) {} with
    | .error e => .error (e, { r with smtpChecked := true })
    | .ok st => .ok (classify st { r with smtpChecked := true })
  else if !opts.checkSMTP then
    .ok { r with result := "valid", resultcode := 1,
                 subresult := "syntax_and_mx_valid", smtpChecked := false,
                 verificationMethod := "dns_lookup",
                 steps := { r.steps with smtp := ⟨none, "Skipped by config"⟩ } }
  else .ok r

/-- Step 3 (source lines 392-420): MX resolution with its local
`try`/`catch`. -/
def mxStage (opts : Options) (env : Env) (domain : String)
    (r : VerificationResult) : Except (String × VerificationResult) VerificationResult :=
  if opts.checkMX then
    match getMXRecords domain env.mx with
    | .error msg =>
      .ok { r with result := "invalid", resultcode := 6,
                   subresult := "dns_lookup_failed", error := some msg,
                   verificationMethod := "dns_lookup",
                   steps := { r.steps with mx := ⟨some false, msg⟩ } }
    | .ok [] =>
      .ok { r with result := "invalid", resultcode := 6,
                   subresult := "no_mx_records",
                   error := some "No MX records found for domain",
                   verificationMethod := "dns_lookup",
                   steps := { r.steps with mx := ⟨some false, "No MX records found"⟩ } }
    | .ok recs =>
      smtpStage opts env
        { r with mxRecords := recs,
                 steps := { r.steps with mx :=
                   ⟨some true, "Found " ++ Nat.repr recs.length ++ " MX records"⟩ } }
  else smtpStage opts env r

/-- The trimmed email, local part and domain `verifyEmail` computes at
source line 374. -/
def trimmedOf (s : String) : String := jsTrimS s

/-- Local part of the trimmed email (`split("@")[0]`). -/
def localOf (s : String) : String :=
  String.mk (localSeg s)

/-- Domain of the trimmed email (`split("@")[1]`). -/
def domainOf (s : String) : String :=
  String.mk (domainSeg s)

/-- The updates of source lines 375-377: store the domain and the
disposable/role-based flags. -/
def withDomainFlags (s : String) (r : VerificationResult) : VerificationResult :=
  { r with
    domain := domainOf s,
    disposable := DISPOSABLE_DOMAINS.contains (String.mk ((domainOf s).data.map Char.toLower)),
    roleBased := ROLE_ACCOUNTS.contains (String.mk ((localOf s).data.map Char.toLower)) }

/-- Steps 2-6 for a string input that passed syntax validation
(source lines 374-517). -/
def pipeline (s : String) (opts : Options) (env : Env)
    (r : VerificationResult) : Except (String × VerificationResult) VerificationResult :=
  match suggestCorrection (trimmedOf s) with
  | some sug =>
    if sug.suggested ≠ trimmedOf s then
      .ok { withDomainFlags s r with
              didyoumean := some sug.suggested,
              result := "invalid",
              resultcode := 6, subresult := "typo_detected",
              verificationMethod := "typo_detection" }
    else mxStage opts env (domainOf s) (withDomainFlags s r)
  | none => mxStage opts env (domainOf s) (withDomainFlags s r)

/-- The body of `verifyEmail`'s `try` block.  A thrown exception is an
`Except.error` carrying the message and the `result` object as mutated
so far (the JS code mutates a single object in place). -/
def verifyEmailBody (email : JSVal) (opts : Options) (env : Env) :
    Except (String × VerificationResult) VerificationResult :=
  if (validateEmailSyntax email).valid then
    match email with
    | .str s =>
      pipeline s opts env
        { initResult email with steps := { (initResult email).steps with
            syntax_ := ⟨some true, "Format is valid"⟩ } }
    | _ => .ok (initResult email)
  else
    .ok { initResult email with
            result := "invalid", resultcode := 6,
            subresult := "invalid_syntax", error := (validateEmailSyntax email).error,
            verificationMethod := "syntax_validation",
            steps := { (initResult email).steps with
              syntax_ := ⟨some false, ((validateEmailSyntax email).error).getD ""⟩ } }

/-- `verifyEmail(email, options)`: the `try` body with the defensive
`catch` of source lines 521-528, which overwrites only the
classification fields and the error message. -/
def verifyEmail (email : JSVal) (opts : Options) (env : Env) : VerificationResult :=
  match verifyEmailBody email opts env with
  | .ok r => r
  | .error (e, r) =>
    { r with result := "unknown", resultcode := 3,
             subresult := "verification_error", error := some e }

/-- An environment for calls that never reach DNS or SMTP. -/
def unusedEnv : Env := ⟨.ok [], fun _ => .error "unused"⟩

example :
    let r := verifyEmail (.str "not-an-email") { checkMX := false } unusedEnv
    r.result = "invalid" ∧ r.resultcode = 6 ∧ r.subresult = "invalid_syntax" := by
  constructor <;> first | rfl | constructor <;> rfl

example :
    let r := verifyEmail (.str "user@gmial.com") { checkMX := false, checkSMTP := false } unusedEnv
    r.result = "invalid" ∧ r.resultcode = 6 ∧ r.subresult = "typo_detected" ∧
      r.didyoumean = some "user@gmail.com" := by
  refine ⟨?_, ?_, ?_, ?_⟩ <;> rfl

example :
    let r := verifyEmail (.str "valid.user@example.com") { checkMX := false, checkSMTP := false } unusedEnv
    r.result = "valid" ∧ r.resultcode = 1 ∧ r.subresult = "syntax_and_mx_valid" ∧
      r.domain = "example.com" ∧ r.didyoumean = none := by
  refine ⟨?_, ?_, ?_, ?_, ?_⟩ <;> rfl

example :
    let r := verifyEmail (.str "contact@hotmial.com") { checkMX := false, checkSMTP := false } unusedEnv
    r.didyoumean = some "contact@hotmail.com" ∧ r.result = "invalid" ∧ r.roleBased = true := by
  refine ⟨?_, ?_, ?_⟩ <;> rfl

example :
    let r := verifyEmail .null { checkMX := false } unusedEnv
    r.result = "invalid" ∧ r.resultcode = 6 ∧ r.email = "" := by
  refine ⟨?_, ?_, ?_⟩ <;> rfl

example :
    let r := verifyEmail (.str "test@subdomain.example.co.uk") { checkMX := false, checkSMTP := false } unusedEnv
    r.domain = "subdomain.example.co.uk" := by rfl

/-! ## Claim C9 -/

theorem levRec_nil_left (ys : List Char) : levRec [] ys = ys.length := by
  cases ys with
  | nil => simp [levRec]
  | cons y ys => simp [levRec]

/-- C9: the edit-distance function satisfies `EditDistance(s, s) = 0`,
symmetry, and `EditDistance("", s) = length s`. -/
theorem levenshteinDistance_properties :
    (∀ s : String, levenshteinDistance s s = 0) ∧
    (∀ a b : String, levenshteinDistance a b = levenshteinDistance b a) ∧
    (∀ s : String, levenshteinDistance "" s = s.length) := by
  refine ⟨?_, ?_, ?_⟩
  · intro s
    rw [levenshteinDistance_eq, levRec_self]
  · intro a b
    rw [levenshteinDistance_eq, levenshteinDistance_eq, levRec_comm]
  · intro s
    rw [levenshteinDistance_eq]
    have hrev : ("" : String).data.reverse = ([] : List Char) := rfl
    rw [hrev, levRec_nil_left]
    exact (List.length_reverse s.data).trans rfl

/-! ## Claim C7 -/

/-- C7: a domain that is an exact key of the typo table short-circuits to
the mapped correction at distance 0, and the two `DidYouMean` examples
behave as specified. -/
theorem suggest_exact_match :
    (∀ (email correct : String),
      email ≠ "" →
      email.data.contains '@' = true →
      lookupTypo (rawDomain email) = some correct →
      suggestCorrection email = some ⟨rawLocal email ++ "@" ++ correct, 0⟩) ∧
    getDidYouMean (.str "user@gmial.com") = some "user@gmail.com" ∧
    getDidYouMean (.str "user@gmail.com") = none := by
  refine ⟨?_, by decide, by decide⟩
  intro email correct he ha hl
  unfold suggestCorrection
  rw [if_neg (by simp [he]; simpa using ha)]
  rw [hl]

/-- Witness for C7's hypotheses at `"user@gmial.com"`. -/
theorem suggest_exact_match_witness :
    suggestCorrection "user@gmial.com" =
      some ⟨rawLocal "user@gmial.com" ++ "@" ++ "gmail.com", 0⟩ :=
  suggest_exact_match.1 "user@gmial.com" "gmail.com" (by decide) (by decide) (by decide)

/-! ## Path lemmas shared by the orchestrator claims -/

/-- The result object as of the start of step 3 for a string input that
passed syntax validation and typo detection. -/
def preResult (s : String) : VerificationResult :=
  { initResult (.str s) with
      domain := domainOf s,
      disposable := DISPOSABLE_DOMAINS.contains (String.mk ((domainOf s).data.map Char.toLower)),
      roleBased := ROLE_ACCOUNTS.contains (String.mk ((localOf s).data.map Char.toLower)),
      steps := ⟨⟨some true, "Format is valid"⟩, ⟨none, "Skipped"⟩, ⟨none, "Skipped"⟩⟩ }

theorem body_eq (s : String) (opts : Options) (env : Env)
    (hsyn : (validateEmailSyntax (.str s)).valid = true)
    (htypo : ∀ sug, suggestCorrection (trimmedOf s) = some sug →
      sug.suggested = trimmedOf s) :
    verifyEmailBody (.str s) opts env =
      mxStage opts env (domainOf s) (preResult s) := by
  unfold verifyEmailBody
  simp only [hsyn, if_true]
  unfold pipeline
  cases hsug : suggestCorrection (trimmedOf s) with
  | none => rfl
  | some sug =>
    simp only [hsug]
    rw [if_neg (by simp [htypo sug hsug])]
    rfl

theorem smtpStage_no_mx (opts : Options) (env : Env) (r : VerificationResult)
    (h : r.mxRecords = []) (hs : opts.checkSMTP = true) :
    smtpStage opts env r = .ok r := by
  simp [smtpStage, h, hs]

theorem mxStage_off (opts : Options) (env : Env) (domain : String)
    (r : VerificationResult) (h : opts.checkMX = false) :
    mxStage opts env domain r = smtpStage opts env r := by
  simp [mxStage, h]

theorem mxStage_found (opts : Options) (env : Env) (domain : String)
    (r : VerificationResult) (recs : List String) (h : opts.checkMX = true)
    (hres : getMXRecords domain env.mx = .ok recs) (hne : recs ≠ []) :
    mxStage opts env domain r =
      smtpStage opts env
        { r with mxRecords := recs,
                 steps := { r.steps with mx :=
                   ⟨some true, "Found " ++ Nat.repr recs.length ++ " MX records"⟩ } } := by
  obtain ⟨a, t, rfl⟩ := List.exists_cons_of_ne_nil hne
  simp [mxStage, h, hres]

theorem smtpStage_run (opts : Options) (env : Env) (r : VerificationResult)
    (st : LoopState) (hs : opts.checkSMTP = true) (hne : r.mxRecords ≠ [])
    (hloop : runLoop env.smtp
      (List.range (min opts.maxAttempts r.mxRecords.length)) {} = .ok st) :
    smtpStage opts env r = .ok (classify st { r with smtpChecked := true }) := by
  have hlen : 0 < r.mxRecords.length := List.length_pos.mpr hne
  unfold smtpStage
  rw [if_pos (by simp [hs, hlen])]
  simp only [hloop]

theorem smtpStage_throw (opts : Options) (env : Env) (r : VerificationResult)
    (e : String) (hs : opts.checkSMTP = true) (hne : r.mxRecords ≠ [])
    (hloop : runLoop env.smtp
      (List.range (min opts.maxAttempts r.mxRecords.length)) {} = .error e) :
    smtpStage opts env r = .error (e, { r with smtpChecked := true }) := by
  have hlen : 0 < r.mxRecords.length := List.length_pos.mpr hne
  unfold smtpStage
  rw [if_pos (by simp [hs, hlen])]
  simp only [hloop]

/-! ## Claim C5 -/

/-- C5: with `checkMX = false` and `checkSMTP = true`, an email passing
syntax validation and typo detection keeps the initial
`unknown`/`3`/`"unknown"` classification: there are no MX records, so
neither the SMTP block nor the `!checkSMTP` branch fires. -/
theorem verify_mx_off_smtp_on (s : String) (opts : Options) (env : Env)
    (hsyn : (validateEmailSyntax (.str s)).valid = true)
    (htypo : ∀ sug, suggestCorrection (trimmedOf s) = some sug →
      sug.suggested = trimmedOf s)
    (hmx : opts.checkMX = false) (hsmtp : opts.checkSMTP = true) :
    (verifyEmail (.str s) opts env).result = "unknown" ∧
    (verifyEmail (.str s) opts env).resultcode = 3 ∧
    (verifyEmail (.str s) opts env).subresult = "unknown" ∧
    (verifyEmail (.str s) opts env).smtpChecked = false ∧
    (verifyEmail (.str s) opts env).steps.smtp = ⟨none, "Skipped"⟩ := by
  have hbody : verifyEmailBody (.str s) opts env = .ok (preResult s) := by
    rw [body_eq s opts env hsyn htypo, mxStage_off _ _ _ _ hmx,
      smtpStage_no_mx _ _ _ rfl hsmtp]
  unfold verifyEmail
  rw [hbody]
  exact ⟨rfl, rfl, rfl, rfl, rfl⟩

/-- Witness for C5 at `"user@example.com"`. -/
theorem verify_mx_off_smtp_on_witness :
    (verifyEmail (.str "user@example.com") { checkMX := false, checkSMTP := true } unusedEnv).result = "unknown" ∧
    (verifyEmail (.str "user@example.com") { checkMX := false, checkSMTP := true } unusedEnv).resultcode = 3 ∧
    (verifyEmail (.str "user@example.com") { checkMX := false, checkSMTP := true } unusedEnv).subresult = "unknown" ∧
    (verifyEmail (.str "user@example.com") { checkMX := false, checkSMTP := true } unusedEnv).smtpChecked = false ∧
    (verifyEmail (.str "user@example.com") { checkMX := false, checkSMTP := true } unusedEnv).steps.smtp = ⟨none, "Skipped"⟩ :=
  verify_mx_off_smtp_on "user@example.com" { checkMX := false, checkSMTP := true }
    unusedEnv (by decide)
    (by intro sug h; rw [show suggestCorrection (trimmedOf "user@example.com") = none from by decide] at h; cases h)
    rfl rfl

/-! ## Claim C1 -/

/-- A populated classification: `result` takes one of the three public
values with its matching numeric alias. -/
def goodResult (r : VerificationResult) : Prop :=
  (r.result = "valid" ∧ r.resultcode = 1) ∨
  (r.result = "invalid" ∧ r.resultcode = 6) ∨
  (r.result = "unknown" ∧ r.resultcode = 3)

theorem classify_good (st : LoopState) (r : VerificationResult) :
    goodResult (classify st r) := by
  unfold classify goodResult
  repeat' split
  all_goals simp

theorem smtpStage_good (opts : Options) (env : Env) (r r' : VerificationResult)
    (hr : goodResult r) (h : smtpStage opts env r = .ok r') : goodResult r' := by
  unfold smtpStage at h
  split at h
  · split at h
    · exact absurd h (by simp)
    · cases h
      exact classify_good _ _
  · split at h
    · cases h
      left
      exact ⟨rfl, rfl⟩
    · cases h
      exact hr

theorem mxStage_good (opts : Options) (env : Env) (domain : String)
    (r r' : VerificationResult) (hr : goodResult r)
    (h : mxStage opts env domain r = .ok r') : goodResult r' := by
  unfold mxStage at h
  split at h
  · split at h
    · cases h
      right; left
      exact ⟨rfl, rfl⟩
    · cases h
      right; left
      exact ⟨rfl, rfl⟩
    · refine smtpStage_good _ _ _ _ ?_ h
      exact hr
  · exact smtpStage_good _ _ _ _ hr h

theorem withDomainFlags_good (s : String) (r : VerificationResult)
    (hr : goodResult r) : goodResult (withDomainFlags s r) := hr

theorem pipeline_good (s : String) (opts : Options) (env : Env)
    (r r' : VerificationResult) (hr : goodResult r)
    (h : pipeline s opts env r = .ok r') : goodResult r' := by
  unfold pipeline at h
  split at h
  · split at h
    · cases h
      right; left
      exact ⟨rfl, rfl⟩
    · exact mxStage_good _ _ _ _ _ (withDomainFlags_good s r hr) h
  · exact mxStage_good _ _ _ _ _ (withDomainFlags_good s r hr) h

theorem body_good (email : JSVal) (opts : Options) (env : Env)
    (r : VerificationResult) (h : verifyEmailBody email opts env = .ok r) :
    goodResult r := by
  unfold verifyEmailBody at h
  split at h
  · split at h
    all_goals first
      | exact pipeline_good _ _ _ _ _ (Or.inr (Or.inr ⟨rfl, rfl⟩)) h
      | (cases h; exact Or.inr (Or.inr ⟨rfl, rfl⟩))
  · cases h
    right; left
    exact ⟨rfl, rfl⟩

/-- C1: `verifyEmail` is total on every modelled input (`null`,
`undefined`, numbers, arbitrary strings) and always carries one of the
three public classifications; and whenever the body of its `try` block
throws, the defensive `catch` yields `unknown`/`3`/`verification_error`
with the thrown message preserved in `error` (and every other field as
already computed). -/
theorem verifyEmail_total_and_catch (email : JSVal) (opts : Options) (env : Env) :
    goodResult (verifyEmail email opts env) ∧
    (∀ (e : String) (r0 : VerificationResult),
      verifyEmailBody email opts env = .error (e, r0) →
      verifyEmail email opts env =
        { r0 with result := "unknown", resultcode := 3,
                  subresult := "verification_error", error := some e }) := by
  constructor
  · cases hb : verifyEmailBody email opts env with
    | ok r =>
      have hv : verifyEmail email opts env = r := by
        unfold verifyEmail; rw [hb]
      rw [hv]
      exact body_good _ _ _ _ hb
    | error p =>
      obtain ⟨e, r0⟩ := p
      have hv : verifyEmail email opts env =
          { r0 with result := "unknown", resultcode := 3,
                    subresult := "verification_error", error := some e } := by
        unfold verifyEmail; rw [hb]
      rw [hv]
      right; right
      exact ⟨rfl, rfl⟩
  · intro e r0 hb
    unfold verifyEmail
    rw [hb]

/-- An environment whose SMTP verdict oracle throws, exercising the
defensive `catch` of C1. -/
def throwingEnv : Env :=
  ⟨.ok [⟨"mx1.example.com", 10⟩], fun _ => .error "socket hang up"⟩

/-- Witness for C1: on a concrete call whose probe await throws, the
body throws and `verifyEmail` maps the exception as claimed. -/
theorem verifyEmail_total_and_catch_witness :
    goodResult (verifyEmail (.str "user@example.com") {} throwingEnv) ∧
    ∃ r0, verifyEmailBody (.str "user@example.com") {} throwingEnv =
        .error ("socket hang up", r0) ∧
      verifyEmail (.str "user@example.com") {} throwingEnv =
        { r0 with result := "unknown", resultcode := 3,
                  subresult := "verification_error", error := some "socket hang up" } := by
  constructor
  · exact (verifyEmail_total_and_catch (.str "user@example.com") {} throwingEnv).1
  · refine ⟨_, rfl, ?_⟩
    exact (verifyEmail_total_and_catch (.str "user@example.com") {} throwingEnv).2
      "socket hang up" _ rfl

/-! ## Claims C2 and C3 -/

theorem interpretSMTPCode_ne_blocked (c : Nat) :
    interpretSMTPCode c ≠ "smtp_blocked_but_mx_valid" := by
  unfold interpretSMTPCode
  repeat' split
  all_goals decide

/-- The result object just before the server loop, for a call that
reached SMTP verification with MX records `recs`. -/
def preSMTP (s : String) (recs : List String) : VerificationResult :=
  { preResult s with
      mxRecords := recs,
      smtpChecked := true,
      steps := ⟨⟨some true, "Format is valid"⟩,
        ⟨some true, "Found " ++ Nat.repr recs.length ++ " MX records"⟩,
        ⟨none, "Skipped"⟩⟩ }

/-- Any call that passes syntax and typo checks, resolves MX records and
runs the server loop to completion classifies the loop state over the
pre-loop result object. -/
theorem verifyEmail_smtp_path (s : String) (opts : Options) (env : Env)
    (st : LoopState) (recs : List String)
    (hsyn : (validateEmailSyntax (.str s)).valid = true)
    (htypo : ∀ sug, suggestCorrection (trimmedOf s) = some sug →
      sug.suggested = trimmedOf s)
    (hmxOn : opts.checkMX = true)
    (hmxok : getMXRecords (domainOf s) env.mx = .ok recs)
    (hne : recs ≠ [])
    (hsm : opts.checkSMTP = true)
    (hloop : runLoop env.smtp
      (List.range (min opts.maxAttempts recs.length)) {} = .ok st) :
    verifyEmail (.str s) opts env = classify st (preSMTP s recs) := by
  have hbody := body_eq s opts env hsyn htypo
  rw [mxStage_found opts env (domainOf s) (preResult s) recs hmxOn hmxok hne] at hbody
  rw [smtpStage_run opts env _ st hsm hne hloop] at hbody
  unfold verifyEmail
  rw [hbody]
  rfl

theorem classify_subresult (st : LoopState) (r : VerificationResult) :
    (classify st r).subresult =
      if st.smtpSuccess then interpretSMTPCode st.lastResponseCode
      else if st.smtpBlocked then "smtp_blocked_but_mx_valid"
      else interpretSMTPCode st.lastResponseCode := by
  unfold classify
  repeat' split
  all_goals simp_all

theorem classify_rejected (st : LoopState) (r : VerificationResult)
    (hsucc : st.smtpSuccess = false) (hblocked : st.smtpBlocked = false)
    (h550 : 550 ≤ st.lastResponseCode) (h600 : st.lastResponseCode < 600) :
    (classify st r).result = "invalid" ∧ (classify st r).resultcode = 6 ∧
    (classify st r).subresult = interpretSMTPCode st.lastResponseCode := by
  have c1 : (decide (450 ≤ st.lastResponseCode) &&
      decide (st.lastResponseCode < 500)) = false := by
    simp only [Bool.and_eq_false_iff, decide_eq_false_iff_not]
    omega
  have c2 : (decide (550 ≤ st.lastResponseCode) &&
      decide (st.lastResponseCode < 600)) = true := by
    simp only [Bool.and_eq_true, decide_eq_true_eq]
    omega
  unfold classify
  rw [hsucc, hblocked]
  simp only [Bool.false_eq_true, if_false, c1, c2, if_true]
  split
  · exact ⟨rfl, rfl, rfl⟩
  · exact ⟨rfl, rfl, rfl⟩

/-- C2 (amended): when the loop ends unsuccessfully, with the sticky
blocked flag unset, and its final response code is 550, 551 or 553, the
call classifies as `invalid`/`6`/`mailbox_does_not_exist`.  (552,
although inside the claim's 550-553 range, yields
`subresult = "unknown_response"`: see the counterexample.) -/
theorem verify_mailbox_does_not_exist (s : String) (opts : Options) (env : Env)
    (st : LoopState) (recs : List String)
    (hsyn : (validateEmailSyntax (.str s)).valid = true)
    (htypo : ∀ sug, suggestCorrection (trimmedOf s) = some sug →
      sug.suggested = trimmedOf s)
    (hmxOn : opts.checkMX = true)
    (hmxok : getMXRecords (domainOf s) env.mx = .ok recs)
    (hne : recs ≠ [])
    (hsm : opts.checkSMTP = true)
    (hloop : runLoop env.smtp
      (List.range (min opts.maxAttempts recs.length)) {} = .ok st)
    (hsucc : st.smtpSuccess = false) (hblocked : st.smtpBlocked = false)
    (hcode : st.lastResponseCode = 550 ∨ st.lastResponseCode = 551 ∨
      st.lastResponseCode = 553) :
    (verifyEmail (.str s) opts env).result = "invalid" ∧
    (verifyEmail (.str s) opts env).resultcode = 6 ∧
    (verifyEmail (.str s) opts env).subresult = "mailbox_does_not_exist" := by
  rw [verifyEmail_smtp_path s opts env st recs hsyn htypo hmxOn hmxok hne hsm hloop]
  obtain ⟨h1, h2, h3⟩ := classify_rejected st (preSMTP s recs) hsucc hblocked
    (by omega) (by omega)
  refine ⟨h1, h2, ?_⟩
  rw [h3]
  rcases hcode with h | h | h <;> rw [h] <;> decide

/-- An environment whose single mail exchanger rejects with 550. -/
def rejectEnv : Env :=
  ⟨.ok [⟨"mx1.example.com", 10⟩],
   fun _ => .ok ⟨false, 550, "550 5.1.1 No such user", 25, false⟩⟩

/-- Witness for C2 at a concrete 550 rejection. -/
theorem verify_mailbox_does_not_exist_witness :
    (verifyEmail (.str "user@example.com") {} rejectEnv).result = "invalid" ∧
    (verifyEmail (.str "user@example.com") {} rejectEnv).resultcode = 6 ∧
    (verifyEmail (.str "user@example.com") {} rejectEnv).subresult = "mailbox_does_not_exist" :=
  verify_mailbox_does_not_exist "user@example.com" {} rejectEnv
    ⟨false, 550, "550 5.1.1 No such user", false, true⟩ ["mx1.example.com"]
    (by decide)
    (by intro sug h
        rw [show suggestCorrection (trimmedOf "user@example.com") = none from by decide] at h
        cases h)
    rfl rfl (by decide) rfl rfl rfl rfl (Or.inl rfl)

/-- An environment whose single mail exchanger rejects with 552
(in the claim's 550-553 range but not mapped to
`mailbox_does_not_exist` by `interpretSMTPCode`). -/
def reject552Env : Env :=
  ⟨.ok [⟨"mx1.example.com", 10⟩],
   fun _ => .ok ⟨false, 552, "552 mailbox storage exceeded", 25, false⟩⟩

/-- Counterexample to C2 as stated: a final verdict with
`success = false`, `allPortsBlocked = false` and `responseCode = 552`
(inside 550-553) classifies as `invalid`/`6` but with
`subresult = "unknown_response"`, not `mailbox_does_not_exist`. -/
theorem verify_552_counterexample :
    reject552Env.smtp 0 = .ok ⟨false, 552, "552 mailbox storage exceeded", 25, false⟩ ∧
    (verifyEmail (.str "user@example.com") {} reject552Env).result = "invalid" ∧
    (verifyEmail (.str "user@example.com") {} reject552Env).resultcode = 6 ∧
    (verifyEmail (.str "user@example.com") {} reject552Env).subresult = "unknown_response" ∧
    "unknown_response" ≠ "mailbox_does_not_exist" := by
  exact ⟨rfl, rfl, rfl, rfl, by decide⟩

theorem classify_fallback_fields (st : LoopState) (r : VerificationResult)
    (h1 : st.smtpSuccess = false) (h2 : st.smtpBlocked = true) :
    (classify st r).result = "valid" ∧ (classify st r).resultcode = 1 ∧
    (classify st r).subresult = "smtp_blocked_but_mx_valid" ∧
    (classify st r).verificationMethod = "dns_lookup_fallback" ∧
    (classify st r).steps.smtp = ⟨none, "Blocked/Timeout (Fallback to DNS)"⟩ ∧
    (classify st r).smtpBlocked = true ∧
    ((classify st r).error).isSome = true := by
  unfold classify
  rw [h1, h2]
  simp only [Bool.false_eq_true, if_false, if_true]
  split
  · exact ⟨rfl, rfl, rfl, rfl, rfl, rfl, rfl⟩
  · exact ⟨rfl, rfl, rfl, rfl, rfl, rfl, rfl⟩

/-- C3 (amended): on the SMTP path, the blocked-fallback classification
(`valid`/`1`/`smtp_blocked_but_mx_valid`, `dns_lookup_fallback`,
`steps.smtp.valid = null`, error message set) is produced exactly when
the loop ends without a success and with the *sticky* `smtpBlocked`
flag set — the OR of `allPortsBlocked` over every verdict obtained, not
a function of the last verdict alone (see the counterexample, where an
earlier server's blocked verdict triggers the fallback although the last
verdict has `allPortsBlocked = false`). -/
theorem verify_blocked_fallback (s : String) (opts : Options) (env : Env)
    (st : LoopState) (recs : List String)
    (hsyn : (validateEmailSyntax (.str s)).valid = true)
    (htypo : ∀ sug, suggestCorrection (trimmedOf s) = some sug →
      sug.suggested = trimmedOf s)
    (hmxOn : opts.checkMX = true)
    (hmxok : getMXRecords (domainOf s) env.mx = .ok recs)
    (hne : recs ≠ [])
    (hsm : opts.checkSMTP = true)
    (hloop : runLoop env.smtp
      (List.range (min opts.maxAttempts recs.length)) {} = .ok st) :
    ((verifyEmail (.str s) opts env).subresult = "smtp_blocked_but_mx_valid" ↔
      st.smtpSuccess = false ∧ st.smtpBlocked = true) ∧
    (st.smtpSuccess = false → st.smtpBlocked = true →
      (verifyEmail (.str s) opts env).result = "valid" ∧
      (verifyEmail (.str s) opts env).resultcode = 1 ∧
      (verifyEmail (.str s) opts env).verificationMethod = "dns_lookup_fallback" ∧
      (verifyEmail (.str s) opts env).steps.smtp = ⟨none, "Blocked/Timeout (Fallback to DNS)"⟩ ∧
      ((verifyEmail (.str s) opts env).error).isSome = true) := by
  rw [verifyEmail_smtp_path s opts env st recs hsyn htypo hmxOn hmxok hne hsm hloop]
  constructor
  · rw [classify_subresult]
    constructor
    · intro h
      by_cases hsucc : st.smtpSuccess = true
      · rw [hsucc] at h
        simp only [if_true] at h
        exact absurd h (interpretSMTPCode_ne_blocked _)
      · rw [Bool.not_eq_true] at hsucc
        rw [hsucc] at h
        simp only [Bool.false_eq_true, if_false] at h
        by_cases hbl : st.smtpBlocked = true
        · exact ⟨hsucc, hbl⟩
        · rw [Bool.not_eq_true] at hbl
          rw [hbl] at h
          simp only [Bool.false_eq_true, if_false] at h
          exact absurd h (interpretSMTPCode_ne_blocked _)
    · rintro ⟨hsucc, hbl⟩
      rw [hsucc, hbl]
      simp
  · intro hsucc hbl
    obtain ⟨a1, a2, _, a4, a5, _, a7⟩ :=
      classify_fallback_fields st (preSMTP s recs) hsucc hbl
    exact ⟨a1, a2, a4, a5, a7⟩

/-- An environment with one fully blocked mail exchanger followed by one
answering 421, exposing the sticky `smtpBlocked` flag. -/
def stickyEnv : Env :=
  ⟨.ok [⟨"a.example.com", 1⟩, ⟨"b.example.com", 2⟩],
   fun i => if i = 0 then .ok ⟨false, 0, "All SMTP ports blocked", 25, true⟩
            else .ok ⟨false, 421, "421 try again later", 25, false⟩⟩

/-- Witness for C3: at `stickyEnv` the loop ends with
`smtpSuccess = false` and the sticky flag set, and the fallback fields
are produced. -/
theorem verify_blocked_fallback_witness :
    ((verifyEmail (.str "user@example.com") {} stickyEnv).subresult = "smtp_blocked_but_mx_valid" ↔
      (⟨false, 421, "421 try again later", true, false⟩ : LoopState).smtpSuccess = false ∧
      (⟨false, 421, "421 try again later", true, false⟩ : LoopState).smtpBlocked = true) ∧
    ((⟨false, 421, "421 try again later", true, false⟩ : LoopState).smtpSuccess = false →
      (⟨false, 421, "421 try again later", true, false⟩ : LoopState).smtpBlocked = true →
      (verifyEmail (.str "user@example.com") {} stickyEnv).result = "valid" ∧
      (verifyEmail (.str "user@example.com") {} stickyEnv).resultcode = 1 ∧
      (verifyEmail (.str "user@example.com") {} stickyEnv).verificationMethod = "dns_lookup_fallback" ∧
      (verifyEmail (.str "user@example.com") {} stickyEnv).steps.smtp = ⟨none, "Blocked/Timeout (Fallback to DNS)"⟩ ∧
      ((verifyEmail (.str "user@example.com") {} stickyEnv).error).isSome = true) :=
  verify_blocked_fallback "user@example.com" {} stickyEnv
    ⟨false, 421, "421 try again later", true, false⟩
    ["a.example.com", "b.example.com"]
    (by decide)
    (by intro sug h
        rw [show suggestCorrection (trimmedOf "user@example.com") = none from by decide] at h
        cases h)
    rfl rfl (by decide) rfl rfl

/-- Counterexample to C3 as stated: at `stickyEnv` the last verdict has
`allPortsBlocked = false` (421 from the second server), yet the
blocked-fallback classification is produced, because the `smtpBlocked`
flag set by the first server is never reset. -/
theorem verify_blocked_fallback_counterexample :
    stickyEnv.smtp 1 = .ok ⟨false, 421, "421 try again later", 25, false⟩ ∧
    (verifyEmail (.str "user@example.com") {} stickyEnv).subresult = "smtp_blocked_but_mx_valid" ∧
    (verifyEmail (.str "user@example.com") {} stickyEnv).result = "valid" ∧
    (verifyEmail (.str "user@example.com") {} stickyEnv).resultcode = 1 ∧
    (verifyEmail (.str "user@example.com") {} stickyEnv).verificationMethod = "dns_lookup_fallback" := by
  exact ⟨rfl, rfl, rfl, rfl, rfl⟩

/-! ## Claim C4 -/

/-- The "best" finished outcome of source line 263-264: the first pushed
outcome with a nonzero response code, else the first pushed outcome. -/
def bestOutcome (results : List ProbeOutcome) : ProbeOutcome :=
  (results.find? (fun r => r.responseCode > 0)).getD (results.headD default)

/-- `allPortsBlocked` of source line 265. -/
def allZero (results : List ProbeOutcome) : Bool :=
  results.all (fun r => r.responseCode = 0)

theorem raceReduceAux_spec :
    ∀ (L acc : List ProbeOutcome), L ≠ [] →
      (∀ o ∈ L, o.success = false) →
      (∀ o ∈ L, ¬(550 ≤ o.responseCode ∧ o.responseCode < 600)) →
      raceReduceAux acc L = some
        ⟨(bestOutcome (acc ++ L)).success, (bestOutcome (acc ++ L)).responseCode,
         if allZero (acc ++ L) then "All SMTP ports blocked"
           else (bestOutcome (acc ++ L)).message,
         (bestOutcome (acc ++ L)).port, allZero (acc ++ L)⟩ := by
  intro L
  induction L with
  | nil => intro acc h; exact absurd rfl h
  | cons o rest ih =>
    intro acc _ hs hc
    unfold raceReduceAux
    rw [if_neg (by simp [hs o (by simp)])]
    rw [if_neg (by
      have := hc o (by simp)
      simp only [Bool.and_eq_true, decide_eq_true_eq]
      intro hcontra
      exact this ⟨hcontra.1, hcontra.2⟩)]
    cases rest with
    | nil => simp [bestOutcome, allZero]
    | cons b bs =>
      rw [if_neg (by simp)]
      rw [ih (acc ++ [o]) (by simp)
        (fun x hx => hs x (by simp [hx]))
        (fun x hx => hc x (by simp [hx]))]
      simp

/-- C4 (amended): when no probe outcome succeeds and none carries a
550-599 code, the racer's verdict carries the success flag, response
code and port of the first finished outcome with a nonzero response code
(else of the first finished outcome), and its message — except that when
every outcome's code is 0 the message is replaced by
`"All SMTP ports blocked"` (the original claim's "the verdict *is* that
outcome" fails on the message field, see the counterexample);
`allPortsBlocked` holds iff every finished outcome has code 0. -/
theorem verifyWithSMTP_reduction (outcomes : List ProbeOutcome)
    (hne : outcomes ≠ [])
    (hs : ∀ o ∈ outcomes, o.success = false)
    (hc : ∀ o ∈ outcomes, ¬(550 ≤ o.responseCode ∧ o.responseCode < 600)) :
    (∀ b, outcomes.find? (fun r => r.responseCode > 0) = some b →
      verifyWithSMTP outcomes =
        some ⟨b.success, b.responseCode, b.message, b.port, false⟩) ∧
    (outcomes.find? (fun r => r.responseCode > 0) = none →
      verifyWithSMTP outcomes =
        some ⟨(outcomes.headD default).success, (outcomes.headD default).responseCode,
          "All SMTP ports blocked", (outcomes.headD default).port, true⟩) ∧
    ((verifyWithSMTP outcomes).map (fun v => v.allPortsBlocked) = some true ↔
      ∀ o ∈ outcomes, o.responseCode = 0) := by
  have hrun : verifyWithSMTP outcomes = some
      ⟨(bestOutcome outcomes).success, (bestOutcome outcomes).responseCode,
       if allZero outcomes then "All SMTP ports blocked" else (bestOutcome outcomes).message,
       (bestOutcome outcomes).port, allZero outcomes⟩ := by
    have := raceReduceAux_spec outcomes [] hne hs hc
    simpa [verifyWithSMTP] using this
  have hallz : allZero outcomes = true ↔ ∀ o ∈ outcomes, o.responseCode = 0 := by
    unfold allZero
    rw [List.all_eq_true]
    constructor
    · intro h o ho
      simpa using h o ho
    · intro h o ho
      simp [h o ho]
  refine ⟨?_, ?_, ?_⟩
  · intro b hb
    have hbz : allZero outcomes = false := by
      have hmem := List.mem_of_find?_eq_some hb
      have hpos : b.responseCode > 0 := by simpa using List.find?_some hb
      rcases hz : allZero outcomes with _ | _
      · rfl
      · exact absurd (hallz.mp hz b hmem) (by omega)
    rw [hrun]
    unfold bestOutcome
    rw [hb, hbz]
    simp
  · intro hnone
    have hbz : allZero outcomes = true := by
      rw [hallz]
      intro o ho
      have := List.find?_eq_none.mp hnone o ho
      simpa using this
    rw [hrun]
    unfold bestOutcome
    rw [hnone, hbz]
    simp
  · rw [hrun]
    simpa using hallz

/-- The three port probes all timing out, in completion order. -/
def timeoutOutcomes : List ProbeOutcome :=
  [⟨false, 0, "Port 25: timeout", 25⟩,
   ⟨false, 0, "Port 587: timeout", 587⟩,
   ⟨false, 0, "Port 465: timeout", 465⟩]

/-- Counterexample to C4 as stated: with every port silent, the verdict
is not the first finished outcome — its message is replaced by
`"All SMTP ports blocked"`, while the first outcome's message is
`"Port 25: timeout"`. -/
theorem verifyWithSMTP_message_counterexample :
    verifyWithSMTP timeoutOutcomes =
      some ⟨false, 0, "All SMTP ports blocked", 25, true⟩ ∧
    (timeoutOutcomes.headD default).message = "Port 25: timeout" ∧
    "All SMTP ports blocked" ≠ "Port 25: timeout" :=
  ⟨rfl, rfl, by decide⟩

/-- A completion order in which the middle probe got a real 421 signal
and the others timed out. -/
def mixedOutcomes : List ProbeOutcome :=
  [⟨false, 0, "Port 25: timeout", 25⟩,
   ⟨false, 421, "421 service busy", 587⟩,
   ⟨false, 0, "Port 465: timeout", 465⟩]

/-- Witness for C4: the nonzero-signal outcome wins the reduction, and
the blocked flag characterisation holds. -/
theorem verifyWithSMTP_reduction_witness :
    verifyWithSMTP mixedOutcomes =
      some ⟨false, 421, "421 service busy", 587, false⟩ ∧
    ((verifyWithSMTP mixedOutcomes).map (fun v => v.allPortsBlocked) = some true ↔
      ∀ o ∈ mixedOutcomes, o.responseCode = 0) :=
  ⟨(verifyWithSMTP_reduction mixedOutcomes (by decide) (by decide) (by decide)).1
      ⟨false, 421, "421 service busy", 587⟩ rfl,
   (verifyWithSMTP_reduction mixedOutcomes (by decide) (by decide) (by decide)).2.2⟩

/-! ## Claim C8 -/

/-- Trimming removes only whitespace, so it preserves the `@` count. -/
theorem countAt_jsTrim (l : List Char) : countAt (jsTrim l) = countAt l := by
  have h1 : ∀ m : List Char, List.count '@' (m.dropWhile isWS) = List.count '@' m := by
    intro m
    conv_rhs => rw [← List.takeWhile_append_dropWhile (p := isWS) (l := m)]
    rw [List.count_append]
    have h0 : List.count '@' (m.takeWhile isWS) = 0 := by
      rw [List.count_eq_zero]
      intro hmem
      have := List.mem_takeWhile_imp hmem
      simp [isWS] at this
    omega
  unfold countAt jsTrim
  rw [List.count_reverse, h1, List.count_reverse, h1]

theorem validateStr_at_count (s : String) (hc : countAt (jsTrim s.data) ≠ 1) :
    (validateStr s).valid = false ∧
    ((jsTrim s.data).length ≤ 254 →
      (validateStr s).error = some ("Email must contain exactly one @ symbol (found " ++
        Nat.repr (countAt (jsTrim s.data)) ++ ")")) := by
  constructor
  · unfold validateStr
    repeat' split
    all_goals simp_all
  · intro hlen
    unfold validateStr
    rw [if_neg (by omega), if_pos hc]

/-- C8 (amended): a string whose `@` count differs from 1 is always
invalid; the error message states the exactly-one-@ rule with the found
count whenever the string is non-empty and its trimmed form is within
the 254-character bound — the empty string ("Email is empty") and
over-long strings (length message) report their earlier rule instead
(see the counterexample). -/
theorem validate_at_count (s : String) (h : countAt s.data ≠ 1) :
    (validateEmailSyntax (.str s)).valid = false ∧
    (s ≠ "" → (jsTrim s.data).length ≤ 254 →
      (validateEmailSyntax (.str s)).error =
        some ("Email must contain exactly one @ symbol (found " ++
          Nat.repr (countAt s.data) ++ ")")) := by
  have hc : countAt (jsTrim s.data) ≠ 1 := by
    rw [countAt_jsTrim]
    exact h
  have key := validateStr_at_count s hc
  constructor
  · by_cases he : s = ""
    · subst he
      rfl
    · have hv : validateEmailSyntax (.str s) = validateStr s := by
        unfold validateEmailSyntax
        rw [if_neg (by simp [JSVal.truthy, he])]
      rw [hv]
      exact key.1
  · intro he hlen
    have hv : validateEmailSyntax (.str s) = validateStr s := by
      unfold validateEmailSyntax
      rw [if_neg (by simp [JSVal.truthy, he])]
    rw [hv, ← countAt_jsTrim s.data]
    exact key.2 hlen

/-- Witness for C8 at `"user@@example.com"` (two `@`s). -/
theorem validate_at_count_witness :
    (validateEmailSyntax (.str "user@@example.com")).valid = false ∧
    ("user@@example.com" ≠ "" → (jsTrim "user@@example.com".data).length ≤ 254 →
      (validateEmailSyntax (.str "user@@example.com")).error =
        some ("Email must contain exactly one @ symbol (found " ++
          Nat.repr (countAt "user@@example.com".data) ++ ")")) :=
  validate_at_count "user@@example.com" (by decide)

/-- Counterexample to C8 as stated: the empty string has zero `@`s, yet
its error message is `"Email is empty"`, which does not mention the
exactly-one-@ rule (it contains no `@` at all). -/
theorem validate_at_count_counterexample :
    countAt ("" : String).data = 0 ∧
    validateEmailSyntax (.str "") = ⟨false, some "Email is empty"⟩ ∧
    "Email is empty" ≠ ("Email must contain exactly one @ symbol (found " ++
      Nat.repr 0 ++ ")") ∧
    (∀ c ∈ "Email is empty".data, c ≠ '@') :=
  ⟨rfl, rfl, by decide, by decide⟩

/-! ## Claim C10 -/

theorem interpretSMTPCode_ne_typo (c : Nat) :
    interpretSMTPCode c ≠ "typo_detected" := by
  unfold interpretSMTPCode
  repeat' split
  all_goals decide

theorem splitAtChar_append (sep : Char) (A B : List Char) (hA : sep ∉ A) :
    splitAtChar sep (A ++ sep :: B) = A :: splitAtChar sep B := by
  induction A with
  | nil => simp [splitAtChar]
  | cons c A ih =>
    have hc : ¬(c = sep) := fun h => hA (by simp [h])
    have hA' : sep ∉ A := fun h => hA (by simp [h])
    show splitAtChar sep (c :: (A ++ sep :: B)) = (c :: A) :: splitAtChar sep B
    rw [splitAtChar, if_neg hc, ih hA']

/-- `subresult` is not the typo marker. -/
def noTypoSub (r : VerificationResult) : Prop :=
  r.subresult ≠ "typo_detected"

theorem classify_noTypo (st : LoopState) (r : VerificationResult) :
    noTypoSub (classify st r) := by
  unfold noTypoSub
  rw [classify_subresult]
  split
  · exact interpretSMTPCode_ne_typo _
  · split
    · decide
    · exact interpretSMTPCode_ne_typo _

theorem smtpStage_noTypo (opts : Options) (env : Env) (r r' : VerificationResult)
    (hr : noTypoSub r) (h : smtpStage opts env r = .ok r') : noTypoSub r' := by
  unfold smtpStage at h
  split at h
  · split at h
    · exact absurd h (by simp)
    · cases h
      exact classify_noTypo _ _
  · split at h
    · cases h
      show ("syntax_and_mx_valid" : String) ≠ "typo_detected"
      decide
    · cases h
      exact hr

theorem mxStage_noTypo (opts : Options) (env : Env) (domain : String)
    (r r' : VerificationResult) (hr : noTypoSub r)
    (h : mxStage opts env domain r = .ok r') : noTypoSub r' := by
  unfold mxStage at h
  split at h
  · split at h
    · cases h
      show ("dns_lookup_failed" : String) ≠ "typo_detected"
      decide
    · cases h
      show ("no_mx_records" : String) ≠ "typo_detected"
      decide
    · refine smtpStage_noTypo _ _ _ _ ?_ h
      exact hr
  · exact smtpStage_noTypo _ _ _ _ hr h

/-- On any call whose typo suggestion does not differ from the trimmed
input, the final `subresult` is never `"typo_detected"`. -/
theorem verify_not_typo (s : String) (opts : Options) (env : Env)
    (htypo : ∀ sug, suggestCorrection (trimmedOf s) = some sug →
      sug.suggested = trimmedOf s) :
    noTypoSub (verifyEmail (.str s) opts env) := by
  by_cases hsyn : (validateEmailSyntax (.str s)).valid = true
  · have hbody := body_eq s opts env hsyn htypo
    cases hmx : mxStage opts env (domainOf s) (preResult s) with
    | ok r =>
      have hv : verifyEmail (.str s) opts env = r := by
        unfold verifyEmail
        rw [hbody, hmx]
      rw [hv]
      refine mxStage_noTypo _ _ _ _ _ ?_ hmx
      show ("unknown" : String) ≠ "typo_detected"
      decide
    | error p =>
      obtain ⟨e, r0⟩ := p
      have hv : verifyEmail (.str s) opts env =
          { r0 with result := "unknown", resultcode := 3,
                    subresult := "verification_error", error := some e } := by
        unfold verifyEmail
        rw [hbody, hmx]
      rw [hv]
      show ("verification_error" : String) ≠ "typo_detected"
      decide
  · have hbody : verifyEmailBody (.str s) opts env =
        .ok { initResult (.str s) with
                result := "invalid", resultcode := 6,
                subresult := "invalid_syntax",
                error := (validateEmailSyntax (.str s)).error,
                verificationMethod := "syntax_validation",
                steps := { (initResult (.str s)).steps with
                  syntax_ := ⟨some false, ((validateEmailSyntax (.str s)).error).getD ""⟩ } } := by
      unfold verifyEmailBody
      rw [if_neg hsyn]
    unfold verifyEmail
    rw [hbody]
    show ("invalid_syntax" : String) ≠ "typo_detected"
    decide

/-- C10: the typo table maps `"aol.com"` to itself, so
`getDidYouMean(L + "@aol.com")` is the non-null input itself (the exact
match short-circuits before any difference check), while `verifyEmail`
never classifies such an address as `typo_detected`, because it only
acts on suggestions that differ from the trimmed input. -/
theorem aol_self_map (L : String) (opts : Options) (env : Env)
    (hL : ∀ c ∈ L.data, isWS c = false ∧ c ≠ '@') :
    getDidYouMean (.str (L ++ "@aol.com")) = some (L ++ "@aol.com") ∧
    (verifyEmail (.str (L ++ "@aol.com")) opts env).subresult ≠ "typo_detected" := by
  have hdata : (L ++ "@aol.com").data = L.data ++ '@' :: "aol.com".data := by
    rw [String.data_append]
  have hsuffix : ∀ c ∈ ('@' :: "aol.com".data), isWS c = false := by decide
  have hall : ∀ c ∈ (L ++ "@aol.com").data, isWS c = false := by
    rw [hdata]
    intro c hcm
    rcases List.mem_append.mp hcm with hc | hc
    · exact (hL c hc).1
    · exact hsuffix c hc
  have hdrop : ∀ m : List Char, (∀ c ∈ m, isWS c = false) → m.dropWhile isWS = m := by
    intro m hm
    cases m with
    | nil => rfl
    | cons c rest =>
      rw [List.dropWhile_cons, if_neg (by simp [hm c (by simp)])]
  have htrim : jsTrim (L ++ "@aol.com").data = (L ++ "@aol.com").data := by
    unfold jsTrim
    rw [hdrop _ hall]
    rw [hdrop _ (by
      intro c hcm
      exact hall c (List.mem_reverse.mp hcm))]
    simp
  have hne : (L ++ "@aol.com") ≠ "" := by
    intro hcontra
    have := congrArg String.data hcontra
    rw [hdata] at this
    simp at this
  have hnotin : '@' ∉ L.data := by
    intro hmem
    exact (hL '@' hmem).2 rfl
  have hsplit : splitAtChar '@' (L ++ "@aol.com").data =
      [L.data, "aol.com".data] := by
    rw [hdata, splitAtChar_append '@' L.data "aol.com".data hnotin]
    rfl
  have hdom : rawDomain (L ++ "@aol.com") = "aol.com" := by
    unfold rawDomain
    rw [hsplit]
    rfl
  have hloc : rawLocal (L ++ "@aol.com") = L := by
    unfold rawLocal
    rw [hsplit]
    rfl
  have hsugg : suggestCorrection (L ++ "@aol.com") =
      some ⟨L ++ "@" ++ "aol.com", 0⟩ := by
    unfold suggestCorrection
    rw [if_neg (by
      simp only [Bool.or_eq_true, Bool.not_eq_true', decide_eq_true_eq]
      rintro (hcontra | hcontra)
      · exact hne hcontra
      · rw [Bool.eq_false_iff] at hcontra
        apply hcontra
        rw [hdata]
        simp)]
    rw [hdom, hloc]
    rfl
  have hjoin : L ++ "@" ++ "aol.com" = L ++ "@aol.com" := by
    rw [String.append_assoc]
    rfl
  have htrimS : jsTrimS (L ++ "@aol.com") = L ++ "@aol.com" := by
    unfold jsTrimS
    rw [htrim]
  constructor
  · show (if (L ++ "@aol.com") = "" then none
      else (suggestCorrection (jsTrimS (L ++ "@aol.com"))).map (fun u => u.suggested)) =
        some (L ++ "@aol.com")
    rw [if_neg hne, htrimS, hsugg]
    show some (L ++ "@" ++ "aol.com") = some (L ++ "@aol.com")
    rw [hjoin]
  · refine verify_not_typo _ _ _ ?_
    intro sug hsug
    rw [show trimmedOf (L ++ "@aol.com") = L ++ "@aol.com" from htrimS] at hsug ⊢
    rw [hsugg] at hsug
    cases hsug
    exact hjoin

/-- Witness for C10 at `L = "user"`. -/
theorem aol_self_map_witness :
    getDidYouMean (.str ("user" ++ "@aol.com")) = some ("user" ++ "@aol.com") ∧
    (verifyEmail (.str ("user" ++ "@aol.com")) {} unusedEnv).subresult ≠ "typo_detected" :=
  aol_self_map "user" {} unusedEnv (by decide)

/-! ## Claim C6 -/

/-- Specification of the fuzzy scan: the entry finally held by the
accumulator is the *last* qualifier (distance within the running best,
correction different from the domain) achieving the minimal distance;
`bd` is the running threshold (initially 2). -/
def lastMinAux (d : String) : Nat → List (String × String) → Option (String × String)
  | _, [] => none
  | bd, p :: rest =>
    if levenshteinDistance d p.1 ≤ bd && p.2 ≠ d then
      match lastMinAux d (levenshteinDistance d p.1) rest with
      | some q => some q
      | none => some p
    else lastMinAux d bd rest

theorem scan_foldl (d lp : String) :
    ∀ (L : List (String × String)) (b0 : Option Suggestion) (bd : Nat),
      List.foldl (scanStep d lp) (b0, bd) L =
        match lastMinAux d bd L with
        | none => (b0, bd)
        | some p => (some ⟨lp ++ "@" ++ p.2, levenshteinDistance d p.1⟩,
            levenshteinDistance d p.1) := by
  intro L
  induction L with
  | nil => intro b0 bd; rfl
  | cons p rest ih =>
    intro b0 bd
    show List.foldl (scanStep d lp) (scanStep d lp (b0, bd) p) rest = _
    by_cases hcond : (levenshteinDistance d p.1 ≤ bd && p.2 ≠ d) = true
    · rw [show scanStep d lp (b0, bd) p =
          (some ⟨lp ++ "@" ++ p.2, levenshteinDistance d p.1⟩,
            levenshteinDistance d p.1) from by
        unfold scanStep; rw [if_pos hcond]]
      rw [ih]
      rw [show lastMinAux d bd (p :: rest) =
          match lastMinAux d (levenshteinDistance d p.1) rest with
          | some q => some q
          | none => some p from by
        rw [lastMinAux, if_pos hcond]]
      cases lastMinAux d (levenshteinDistance d p.1) rest <;> rfl
    · rw [show scanStep d lp (b0, bd) p = (b0, bd) from by
        unfold scanStep; rw [if_neg hcond]]
      rw [ih]
      rw [show lastMinAux d bd (p :: rest) = lastMinAux d bd rest from by
        rw [lastMinAux, if_neg hcond]]

theorem lastMinAux_none (d : String) :
    ∀ (L : List (String × String)) (bd : Nat),
      lastMinAux d bd L = none ↔
        ∀ p ∈ L, ¬(levenshteinDistance d p.1 ≤ bd ∧ p.2 ≠ d) := by
  intro L
  induction L with
  | nil => intro bd; simp [lastMinAux]
  | cons p rest ih =>
    intro bd
    rw [lastMinAux]
    by_cases hcond : levenshteinDistance d p.1 ≤ bd ∧ p.2 ≠ d
    · rw [if_pos (by
        simp only [Bool.and_eq_true, decide_eq_true_eq]
        exact ⟨hcond.1, hcond.2⟩)]
      constructor
      · intro h
        cases hv : lastMinAux d (levenshteinDistance d p.1) rest <;>
          rw [hv] at h <;> cases h
      · intro h
        exact absurd hcond (h p (by simp))
    · rw [if_neg (by
        simp only [Bool.and_eq_true, decide_eq_true_eq]
        exact fun hc => hcond ⟨hc.1, hc.2⟩)]
      rw [ih]
      constructor
      · intro h q hq
        rcases List.mem_cons.mp hq with rfl | hq'
        · exact hcond
        · exact h q hq'
      · intro h q hq
        exact h q (by simp [hq])

theorem lastMinAux_some (d : String) :
    ∀ (L : List (String × String)) (bd : Nat) (p : String × String),
      lastMinAux d bd L = some p →
      (levenshteinDistance d p.1 ≤ bd ∧ p.2 ≠ d) ∧
      (∀ q ∈ L, levenshteinDistance d q.1 ≤ bd → q.2 ≠ d →
        levenshteinDistance d p.1 ≤ levenshteinDistance d q.1) ∧
      ∃ L1 L2, L = L1 ++ p :: L2 ∧
        ∀ q ∈ L2, ¬(levenshteinDistance d q.1 ≤ levenshteinDistance d p.1 ∧
          q.2 ≠ d) := by
  intro L
  induction L with
  | nil => intro bd p h; cases h
  | cons e rest ih =>
    intro bd p h
    rw [lastMinAux] at h
    by_cases hcond : levenshteinDistance d e.1 ≤ bd ∧ e.2 ≠ d
    · rw [if_pos (by
        simp only [Bool.and_eq_true, decide_eq_true_eq]
        exact ⟨hcond.1, hcond.2⟩)] at h
      cases hrec : lastMinAux d (levenshteinDistance d e.1) rest with
      | some q =>
        rw [hrec] at h
        cases h
        obtain ⟨⟨hq1, hq2⟩, hmin, L1, L2, hsplit, hlast⟩ := ih _ _ hrec
        refine ⟨⟨le_trans hq1 hcond.1, hq2⟩, ?_, e :: L1, L2, by rw [hsplit]; rfl, hlast⟩
        intro x hx hxb hxd
        rcases List.mem_cons.mp hx with rfl | hx'
        · exact hq1
        · by_cases hxe : levenshteinDistance d x.1 ≤ levenshteinDistance d e.1
          · exact hmin x hx' hxe hxd
          · omega
      | none =>
        rw [hrec] at h
        cases h
        have hnone := (lastMinAux_none d rest (levenshteinDistance d e.1)).mp hrec
        refine ⟨hcond, ?_, [], rest, rfl, ?_⟩
        · intro x hx hxb hxd
          rcases List.mem_cons.mp hx with rfl | hx'
          · exact le_refl _
          · by_cases hxe : levenshteinDistance d x.1 ≤ levenshteinDistance d e.1
            · exact absurd ⟨hxe, hxd⟩ (hnone x hx')
            · omega
        · exact hnone
    · rw [if_neg (by
        simp only [Bool.and_eq_true, decide_eq_true_eq]
        exact fun hc => hcond ⟨hc.1, hc.2⟩)] at h
      obtain ⟨hqual, hmin, L1, L2, hsplit, hlast⟩ := ih _ _ h
      refine ⟨hqual, ?_, e :: L1, L2, by rw [hsplit]; rfl, hlast⟩
      intro x hx hxb hxd
      rcases List.mem_cons.mp hx with rfl | hx'
      · exact absurd ⟨hxb, hxd⟩ hcond
      · exact hmin x hx' hxb hxd

/-- C6 (amended): for a domain that is not an exact table key, the scan
returns the candidate with minimal Levenshtein distance among the table
entries with distance at most 2 and a correction different from the
domain (none if no such candidate exists); when several candidates share
the minimal distance, the one returned is the *last* such candidate in
table iteration order, not the first — the accumulator is replaced on
`distance <= bestDistance` (see the counterexample). -/
theorem suggest_fuzzy_scan (email : String)
    (he : email ≠ "") (ha : email.data.contains '@' = true)
    (hd : lookupTypo (rawDomain email) = none) :
    (suggestCorrection email = none ↔
      ∀ p ∈ COMMON_TYPOS,
        ¬(levenshteinDistance (rawDomain email) p.1 ≤ 2 ∧
          p.2 ≠ rawDomain email)) ∧
    (∀ sug, suggestCorrection email = some sug →
      ∃ p L1 L2, COMMON_TYPOS = L1 ++ p :: L2 ∧
        levenshteinDistance (rawDomain email) p.1 ≤ 2 ∧
        p.2 ≠ rawDomain email ∧
        sug = ⟨rawLocal email ++ "@" ++ p.2,
          levenshteinDistance (rawDomain email) p.1⟩ ∧
        (∀ q ∈ COMMON_TYPOS, levenshteinDistance (rawDomain email) q.1 ≤ 2 →
          q.2 ≠ rawDomain email →
          levenshteinDistance (rawDomain email) p.1 ≤
            levenshteinDistance (rawDomain email) q.1) ∧
        (∀ q ∈ L2, ¬(levenshteinDistance (rawDomain email) q.1 ≤
          levenshteinDistance (rawDomain email) p.1 ∧
          q.2 ≠ rawDomain email))) := by
  have hval : suggestCorrection email =
      (match lastMinAux (rawDomain email) 2 COMMON_TYPOS with
       | none => ((none : Option Suggestion), 2)
       | some p => (some ⟨rawLocal email ++ "@" ++ p.2,
           levenshteinDistance (rawDomain email) p.1⟩,
           levenshteinDistance (rawDomain email) p.1)).1 := by
    unfold suggestCorrection
    rw [if_neg (by simp [he]; simpa using ha), hd]
    rw [scan_foldl]
  constructor
  · rw [hval]
    cases hlm : lastMinAux (rawDomain email) 2 COMMON_TYPOS with
    | none =>
      constructor
      · intro _
        exact (lastMinAux_none _ _ _).mp hlm
      · intro _
        rfl
    | some p =>
      constructor
      · intro h
        exact absurd h (by simp)
      · intro hall
        exfalso
        obtain ⟨hqual, _, L1, L2, hsplit, _⟩ := lastMinAux_some _ _ _ _ hlm
        exact hall p (by rw [hsplit]; simp) hqual
  · intro sug hsug
    rw [hval] at hsug
    cases hlm : lastMinAux (rawDomain email) 2 COMMON_TYPOS with
    | none =>
      rw [hlm] at hsug
      exact absurd hsug (by simp)
    | some p =>
      rw [hlm] at hsug
      obtain ⟨hqual, hmin, L1, L2, hsplit, hlast⟩ := lastMinAux_some _ _ _ _ hlm
      refine ⟨p, L1, L2, hsplit, hqual.1, hqual.2, ?_, hmin, hlast⟩
      cases hsug
      rfl

/-- Witness for C6 at `"user@hotonmail.co"` (not an exact key; the
minimal distance 2 is shared by `hotmail.co` and `protonmail.co`). -/
theorem suggest_fuzzy_scan_witness :
    (suggestCorrection "user@hotonmail.co" = none ↔
      ∀ p ∈ COMMON_TYPOS,
        ¬(levenshteinDistance (rawDomain "user@hotonmail.co") p.1 ≤ 2 ∧
          p.2 ≠ rawDomain "user@hotonmail.co")) ∧
    (∀ sug, suggestCorrection "user@hotonmail.co" = some sug →
      ∃ p L1 L2, COMMON_TYPOS = L1 ++ p :: L2 ∧
        levenshteinDistance (rawDomain "user@hotonmail.co") p.1 ≤ 2 ∧
        p.2 ≠ rawDomain "user@hotonmail.co" ∧
        sug = ⟨rawLocal "user@hotonmail.co" ++ "@" ++ p.2,
          levenshteinDistance (rawDomain "user@hotonmail.co") p.1⟩ ∧
        (∀ q ∈ COMMON_TYPOS, levenshteinDistance (rawDomain "user@hotonmail.co") q.1 ≤ 2 →
          q.2 ≠ rawDomain "user@hotonmail.co" →
          levenshteinDistance (rawDomain "user@hotonmail.co") p.1 ≤
            levenshteinDistance (rawDomain "user@hotonmail.co") q.1) ∧
        (∀ q ∈ L2, ¬(levenshteinDistance (rawDomain "user@hotonmail.co") q.1 ≤
          levenshteinDistance (rawDomain "user@hotonmail.co") p.1 ∧
          q.2 ≠ rawDomain "user@hotonmail.co"))) :=
  suggest_fuzzy_scan "user@hotonmail.co" (by decide) (by decide) (by decide)

/-- Counterexample to C6 as stated: for `"user@hotonmail.co"` the first
minimal-distance candidate in table order is `hotmail.co` (index 10,
distance 2; no earlier entry qualifies and no entry is at distance ≤ 1),
yet the scan returns the suggestion built from the *later* minimal
candidate `protonmail.co`. -/
theorem suggest_tie_break_counterexample :
    suggestCorrection "user@hotonmail.co" = some ⟨"user@protonmail.com", 2⟩ ∧
    COMMON_TYPOS.get? 10 = some ("hotmail.co", "hotmail.com") ∧
    levenshteinDistance "hotonmail.co" "hotmail.co" = 2 ∧
    "hotmail.com" ≠ "hotonmail.co" ∧
    (∀ q ∈ COMMON_TYPOS.take 10,
      ¬(levenshteinDistance "hotonmail.co" q.1 ≤ 2 ∧ q.2 ≠ "hotonmail.co")) ∧
    (∀ q ∈ COMMON_TYPOS, ¬(levenshteinDistance "hotonmail.co" q.1 ≤ 1)) ∧
    "user@protonmail.com" ≠ "user@hotmail.com" := by
  refine ⟨rfl, rfl, by decide, by decide, by decide, by decide, by decide⟩

end EmailVerifier
